import Mathlib

/-!
Verification of the fast-gateway repository: a shallow embedding of the
gateway's rate-limiter middleware (src/gateway/app/middleware.py), the
readiness/liveness actuator endpoints (src/gateway/app/entrypoints/actuator.py)
and the booking dispatcher (src/gateway/app/entrypoints/v1/booking.py),
together with theorems settling the specification's claims about them.

The shared counter store (Redis) is modelled as an explicit state: a counter
map, an expiry map, a ghost counter recording how many times EXPIRE was
invoked, and a reachability flag (`reachable = false` means every store
operation raises a connection-level error, the situation caught by the
middleware's `except` clause). The increment semantics follows both Redis
INCR and the repository's own FakeRedis test double: a missing key counts
as 0 and is bumped to 1.
-/

namespace FastGateway

/-- Application settings, from ApplicationSettings in
src/gateway/app/settings/app_settings.py (environment-sourced; defaults
USE_LIMITER = False, MAX_REQUESTS = 10, REQUEST_TIME_LIMIT = 60). -/
structure ApplicationSettings where
  USE_LIMITER : Bool
  MAX_REQUESTS : Nat
  REQUEST_TIME_LIMIT : Nat

/-- State of the shared counter store as observed by the gateway. -/
structure RedisState where
  counters : String → Nat
  expiries : String → Option Nat
  expireCalls : Nat
  reachable : Bool
  connErrorMsg : String

/-- Atomic increment, as in Redis INCR and the repository's FakeRedis mock:
a missing key counts as 0; returns the post-increment value. -/
def RedisState.incr (s : RedisState) (key : String) : Nat × RedisState :=
  let value := s.counters key + 1
  (value, { s with counters := fun k => if k = key then value else s.counters k })

/-- Set a key's time-to-live, as in Redis EXPIRE; the ghost field
`expireCalls` counts invocations. -/
def RedisState.expire (s : RedisState) (key : String) (seconds : Nat) : RedisState :=
  { s with expiries := fun k => if k = key then some seconds else s.expiries k,
           expireCalls := s.expireCalls + 1 }

/-- A store with every counter at zero, no expiries set, reachable. -/
def freshStore : RedisState :=
  { counters := fun _ => 0, expiries := fun _ => none, expireCalls := 0,
    reachable := true, connErrorMsg := "Error connecting to redis" }

/-- The same store when the connection to it is down. -/
def downStore : RedisState := { freshStore with reachable := false }

/-- Outcome of the middleware for one request: pass the request on, or raise
an HTTPException with a status code and a detail message. -/
inductive Decision where
  | admitted : Decision
  | rejected (statusCode : Nat) (detail : String) : Decision
deriving DecidableEq, Repr

/-- The rate-limiter key for a client host, "rate-limiter:{identifier}". -/
def limiterKey (clientHost : String) : String := "rate-limiter:" ++ clientHost

/-- Translation of rate_limiter_middleware in src/gateway/app/middleware.py.
Control flow of the source: return early when USE_LIMITER is off; return
early when the path is exactly "/readiness"; otherwise INCR the per-client
key and, when the post-increment counter exceeds MAX_REQUESTS, EXPIRE the key
to REQUEST_TIME_LIMIT and raise 429 with the configured limit in the detail.
A connection-level error from the store is caught: "/health" is admitted,
every other path gets 503 with the error's message. -/
def rate_limiter_middleware (settings : ApplicationSettings) (path clientHost : String)
    (redis : RedisState) : Decision × RedisState :=
  if settings.USE_LIMITER = false then (.admitted, redis)
  else if path = "/readiness" then (.admitted, redis)
  else
    let key := limiterKey clientHost
    if redis.reachable = true then
      let res := redis.incr key
      let counter := res.1
      let redis1 := res.2
      if counter > settings.MAX_REQUESTS then
        (.rejected 429 ("Limit of: " ++ toString settings.MAX_REQUESTS ++ " exceeded"),
         redis1.expire key settings.REQUEST_TIME_LIMIT)
      else (.admitted, redis1)
    else
      if path = "/health" then (.admitted, redis)
      else (.rejected 503 redis.connErrorMsg, redis)

/-- Store state after n requests from one client to one path. -/
def stateAfter (settings : ApplicationSettings) (path clientHost : String)
    (s : RedisState) : Nat → RedisState
  | 0 => s
  | n + 1 => (rate_limiter_middleware settings path clientHost
      (stateAfter settings path clientHost s n)).2

/-- Decision taken for the request that follows n earlier requests, i.e. for
request number n+1 of the traffic. -/
def nextDecision (settings : ApplicationSettings) (path clientHost : String)
    (s : RedisState) (n : Nat) : Decision :=
  (rate_limiter_middleware settings path clientHost
    (stateAfter settings path clientHost s n)).1

theorem middleware_reachable_step (settings : ApplicationSettings) (path c : String)
    (s : RedisState) (hE : settings.USE_LIMITER = true) (hP : path ≠ "/readiness")
    (hR : s.reachable = true) :
    (rate_limiter_middleware settings path c s).2.counters (limiterKey c)
        = s.counters (limiterKey c) + 1 ∧
    (rate_limiter_middleware settings path c s).2.reachable = true ∧
    (rate_limiter_middleware settings path c s).1
        = (if s.counters (limiterKey c) + 1 > settings.MAX_REQUESTS
           then Decision.rejected 429
             ("Limit of: " ++ toString settings.MAX_REQUESTS ++ " exceeded")
           else .admitted) := by
  by_cases hov : s.counters (limiterKey c) + 1 > settings.MAX_REQUESTS <;>
    simp [rate_limiter_middleware, RedisState.incr, RedisState.expire, hE, hP, hR, hov]

theorem stateAfter_counters (settings : ApplicationSettings) (path c : String)
    (s : RedisState) (hE : settings.USE_LIMITER = true) (hP : path ≠ "/readiness")
    (hR : s.reachable = true) (n : Nat) :
    (stateAfter settings path c s n).counters (limiterKey c)
        = s.counters (limiterKey c) + n ∧
    (stateAfter settings path c s n).reachable = true := by
  induction n with
  | zero => exact ⟨rfl, hR⟩
  | succ n ih =>
      have step := middleware_reachable_step settings path c
        (stateAfter settings path c s n) hE hP ih.2
      refine ⟨?_, ?_⟩
      · show (rate_limiter_middleware settings path c
            (stateAfter settings path c s n)).2.counters (limiterKey c) = _
        rw [step.1, ih.1]
        omega
      · exact step.2.1

/-- Claim C1: with the limiter enabled and the store reachable, for every
client identifier, on a path subject to counting (any path other than the
exempt "/readiness"), the request following k earlier requests in a window
(request number k+1) is admitted whenever k+1 ≤ MAX_REQUESTS, and the
request following MAX_REQUESTS earlier ones (request number MAX_REQUESTS+1)
is rejected with a 429 whose detail carries the configured limit. -/
theorem rate_limiter_window (settings : ApplicationSettings) (path c : String)
    (k : Nat) (hE : settings.USE_LIMITER = true) (hP : path ≠ "/readiness") :
    (k < settings.MAX_REQUESTS →
      nextDecision settings path c freshStore k = .admitted) ∧
    nextDecision settings path c freshStore settings.MAX_REQUESTS
      = .rejected 429 ("Limit of: " ++ toString settings.MAX_REQUESTS ++ " exceeded") := by
  have base : freshStore.reachable = true := rfl
  have zero : freshStore.counters (limiterKey c) = 0 := rfl
  constructor
  · intro hk
    have h := stateAfter_counters settings path c freshStore hE hP base k
    have step := middleware_reachable_step settings path c
      (stateAfter settings path c freshStore k) hE hP h.2
    rw [nextDecision, step.2.2, h.1, zero]
    rw [if_neg (by omega)]
  · have h := stateAfter_counters settings path c freshStore hE hP base
      settings.MAX_REQUESTS
    have step := middleware_reachable_step settings path c
      (stateAfter settings path c freshStore settings.MAX_REQUESTS) hE hP h.2
    rw [nextDecision, step.2.2, h.1, zero]
    rw [if_pos (by omega)]

/-- Witness for rate_limiter_window: MAX_REQUESTS = 2, on path "/bookings";
the second request is admitted and the third is rejected with 429. -/
theorem rate_limiter_window_witness :
    (1 : Nat) < 2 ∧
    nextDecision { USE_LIMITER := true, MAX_REQUESTS := 2, REQUEST_TIME_LIMIT := 60 }
      "/bookings" "9.9.9.9" freshStore 1 = .admitted ∧
    nextDecision { USE_LIMITER := true, MAX_REQUESTS := 2, REQUEST_TIME_LIMIT := 60 }
      "/bookings" "9.9.9.9" freshStore 2
      = .rejected 429 ("Limit of: " ++ toString 2 ++ " exceeded") := by
  have h := rate_limiter_window
    { USE_LIMITER := true, MAX_REQUESTS := 2, REQUEST_TIME_LIMIT := 60 }
    "/bookings" "9.9.9.9" 1 rfl (by decide)
  exact ⟨by decide, h.1 (by decide), h.2⟩

/-- Claim C3 counterexample: expiry is NOT set exactly once. With
MAX_REQUESTS = 1, after three requests from a fresh store the middleware has
invoked EXPIRE twice (once on each of the two over-limit requests), not once
as the claim states: the code refreshes the key's TTL on every over-limit
request. -/
theorem expiry_set_once_counterexample :
    (stateAfter { USE_LIMITER := true, MAX_REQUESTS := 1, REQUEST_TIME_LIMIT := 60 }
        "/bookings" "9.9.9.9" freshStore 3).expireCalls = 2 ∧
    ¬ (stateAfter { USE_LIMITER := true, MAX_REQUESTS := 1, REQUEST_TIME_LIMIT := 60 }
        "/bookings" "9.9.9.9" freshStore 3).expireCalls = 1 := by
  constructor <;> decide

/-- Claim C3 amended: on EVERY request whose post-increment counter exceeds
MAX_REQUESTS (not only the first such request), the middleware invokes
EXPIRE on the client's key, setting (refreshing) its TTL to
REQUEST_TIME_LIMIT; so the key vanishes within REQUEST_TIME_LIMIT seconds of
the LAST over-limit request, not of the first. -/
theorem expire_refreshed_every_overlimit (settings : ApplicationSettings)
    (path c : String) (s : RedisState) (hE : settings.USE_LIMITER = true)
    (hP : path ≠ "/readiness") (hR : s.reachable = true)
    (hOver : s.counters (limiterKey c) + 1 > settings.MAX_REQUESTS) :
    (rate_limiter_middleware settings path c s).2.expiries (limiterKey c)
        = some settings.REQUEST_TIME_LIMIT ∧
    (rate_limiter_middleware settings path c s).2.expireCalls = s.expireCalls + 1 := by
  simp [rate_limiter_middleware, RedisState.incr, RedisState.expire, hE, hP, hR, hOver]

/-- Witness for expire_refreshed_every_overlimit: a store whose counter for
the client already reads 5, limit 1; the next request refreshes the expiry
and bumps the EXPIRE invocation count. -/
theorem expire_refreshed_every_overlimit_witness :
    ({ counters := fun _ => 5, expiries := fun _ => none, expireCalls := 1,
       reachable := true, connErrorMsg := "e" } : RedisState).counters
        (limiterKey "9.9.9.9") + 1 > 1 ∧
    (rate_limiter_middleware
        { USE_LIMITER := true, MAX_REQUESTS := 1, REQUEST_TIME_LIMIT := 60 }
        "/bookings" "9.9.9.9"
        { counters := fun _ => 5, expiries := fun _ => none, expireCalls := 1,
          reachable := true, connErrorMsg := "e" }).2.expiries
        (limiterKey "9.9.9.9") = some 60 ∧
    (rate_limiter_middleware
        { USE_LIMITER := true, MAX_REQUESTS := 1, REQUEST_TIME_LIMIT := 60 }
        "/bookings" "9.9.9.9"
        { counters := fun _ => 5, expiries := fun _ => none, expireCalls := 1,
          reachable := true, connErrorMsg := "e" }).2.expireCalls = 2 := by
  have h := expire_refreshed_every_overlimit
    { USE_LIMITER := true, MAX_REQUESTS := 1, REQUEST_TIME_LIMIT := 60 }
    "/bookings" "9.9.9.9"
    { counters := fun _ => 5, expiries := fun _ => none, expireCalls := 1,
      reachable := true, connErrorMsg := "e" }
    rfl (by decide) rfl (by decide)
  exact ⟨by decide, h.1, h.2⟩

/-- Claim C4 counterexample: "/health" is NOT exempt from the limiter. With
the limiter enabled, MAX_REQUESTS = 1 and the store reachable, the second
request to "/health" from the same client is rejected with 429 (exactly the
behaviour the repository's test_rate_limiter asserts). -/
theorem health_rate_limited_counterexample :
    nextDecision { USE_LIMITER := true, MAX_REQUESTS := 1, REQUEST_TIME_LIMIT := 60 }
      "/health" "9.9.9.9" freshStore 1
      = .rejected 429 ("Limit of: " ++ toString 1 ++ " exceeded") := by
  decide

/-- Claim C4 amended: only the readiness path "/readiness" bypasses the
limiter unconditionally (the request is admitted and the store untouched,
for every settings and store state); the liveness path "/health" is admitted
despite the limiter only when the store is unreachable. -/
theorem probe_path_exemptions (settings : ApplicationSettings) (c : String)
    (s : RedisState) :
    rate_limiter_middleware settings "/readiness" c s = (.admitted, s) ∧
    (settings.USE_LIMITER = true → s.reachable = false →
      rate_limiter_middleware settings "/health" c s = (.admitted, s)) := by
  constructor
  · by_cases hE : settings.USE_LIMITER = false <;>
      simp [rate_limiter_middleware, hE]
  · intro hE hR
    simp [rate_limiter_middleware, hE, hR]

/-- Witness for probe_path_exemptions: a concrete enabled configuration with
an unreachable store admits "/health", and "/readiness" is admitted on a
reachable one. -/
theorem probe_path_exemptions_witness :
    rate_limiter_middleware
      { USE_LIMITER := true, MAX_REQUESTS := 1, REQUEST_TIME_LIMIT := 60 }
      "/readiness" "9.9.9.9" freshStore = (.admitted, freshStore) ∧
    rate_limiter_middleware
      { USE_LIMITER := true, MAX_REQUESTS := 1, REQUEST_TIME_LIMIT := 60 }
      "/health" "9.9.9.9" downStore = (.admitted, downStore) := by
  refine ⟨(probe_path_exemptions _ "9.9.9.9" freshStore).1, ?_⟩
  exact (probe_path_exemptions
    { USE_LIMITER := true, MAX_REQUESTS := 1, REQUEST_TIME_LIMIT := 60 }
    "9.9.9.9" downStore).2 rfl rfl

/-- Claim C5: with the limiter enabled and the store unreachable (its
operations raise a connection-level error), the liveness path "/health" is
admitted (fail open) while every other non-exempt path is rejected with 503
carrying the error's message (fail closed). -/
theorem store_unreachable_policy (settings : ApplicationSettings)
    (path c : String) (s : RedisState) (hE : settings.USE_LIMITER = true)
    (hR : s.reachable = false) (hP : path ≠ "/readiness") :
    rate_limiter_middleware settings path c s
      = if path = "/health" then (.admitted, s)
        else (.rejected 503 s.connErrorMsg, s) := by
  by_cases hH : path = "/health" <;>
    simp [rate_limiter_middleware, hE, hR, hP, hH]

/-- Witness for store_unreachable_policy: with the store down, "/health" is
admitted and "/bookings" gets a 503 with the connection error's message. -/
theorem store_unreachable_policy_witness :
    rate_limiter_middleware
      { USE_LIMITER := true, MAX_REQUESTS := 1, REQUEST_TIME_LIMIT := 60 }
      "/health" "9.9.9.9" downStore = (.admitted, downStore) ∧
    rate_limiter_middleware
      { USE_LIMITER := true, MAX_REQUESTS := 1, REQUEST_TIME_LIMIT := 60 }
      "/bookings" "9.9.9.9" downStore
      = (.rejected 503 "Error connecting to redis", downStore) := by
  have h1 := store_unreachable_policy
    { USE_LIMITER := true, MAX_REQUESTS := 1, REQUEST_TIME_LIMIT := 60 }
    "/health" "9.9.9.9" downStore rfl rfl (by decide)
  have h2 := store_unreachable_policy
    { USE_LIMITER := true, MAX_REQUESTS := 1, REQUEST_TIME_LIMIT := 60 }
    "/bookings" "9.9.9.9" downStore rfl rfl (by decide)
  constructor
  · simpa using h1
  · simpa using h2

/-- The service readiness check status enum, from ServiceReadinessStatus in
src/gateway/app/domain/schemas.py (OK = "healthy", ERROR = "unhealthy",
OFFLINE = "offline"). -/
inductive ServiceReadinessStatus where
  | OK : ServiceReadinessStatus
  | ERROR : ServiceReadinessStatus
  | OFFLINE : ServiceReadinessStatus
deriving DecidableEq, Repr

/-- One component's readiness, from ServiceReadiness in
src/gateway/app/domain/schemas.py. -/
structure ServiceReadiness where
  name : String
  status : ServiceReadinessStatus
deriving DecidableEq, Repr

/-- The aggregated readiness report, from ReadinessChecked in
src/gateway/app/domain/schemas.py. -/
structure ReadinessChecked where
  status : ServiceReadinessStatus
  services : List ServiceReadiness
deriving DecidableEq, Repr

/-- Outcome of one upstream probe at the transport boundary: an HTTP response
with some status code was received, or the request failed with a timeout or
connection-level error (asyncio.TimeoutError / aiohttp.ClientError). -/
inductive ProbeOutcome where
  | httpResponse (code : Nat) : ProbeOutcome
  | netFailure : ProbeOutcome
deriving DecidableEq, Repr

/-- Classification performed inside the loop of check_services in
src/gateway/app/entrypoints/actuator.py: HTTP 200 yields OK, any other HTTP
status yields ERROR, and a caught timeout or client error yields OFFLINE;
the function is total, so every outcome becomes a status. -/
def probeStatus : ProbeOutcome → ServiceReadinessStatus
  | .httpResponse code => if code = 200 then .OK else .ERROR
  | .netFailure => .OFFLINE

/-- Translation of check_services in src/gateway/app/entrypoints/actuator.py:
probe each named service in order and record its classified status. -/
def check_services (services : List (String × ProbeOutcome)) : List ServiceReadiness :=
  services.map (fun sv => { name := sv.1, status := probeStatus sv.2 })

/-- Predicate mirroring the source's aggregation test
`service.status in (ServiceReadinessStatus.OFFLINE, ServiceReadinessStatus.ERROR)`. -/
def isFailure : ServiceReadinessStatus → Bool
  | .OFFLINE => true
  | .ERROR => true
  | .OK => false

/-- Specification-side predicate: the component reports OK. -/
def isOK : ServiceReadinessStatus → Bool
  | .OK => true
  | _ => false

/-- The components list built by ready in
src/gateway/app/entrypoints/actuator.py: first, when USE_LIMITER is on, a
"redis" entry whose status is OK when the store answers ping and ERROR
otherwise; then the probed upstreams "auth-service" and "booking-service",
in the insertion order of the using_services dict. -/
def readinessServices (useLimiter ping : Bool) (auth booking : ProbeOutcome) :
    List ServiceReadiness :=
  (if useLimiter
   then [{ name := "redis", status := if ping then .OK else .ERROR }]
   else [])
  ++ check_services [("auth-service", auth), ("booking-service", booking)]

/-- Result of the GET /readiness endpoint: 200 with the report as body, or an
HTTPException whose detail is the report. -/
inductive ReadyResult where
  | ok (body : ReadinessChecked) : ReadyResult
  | httpError (statusCode : Nat) (detail : ReadinessChecked) : ReadyResult
deriving DecidableEq, Repr

/-- The report carried by either outcome of the endpoint. -/
def ReadyResult.payload : ReadyResult → ReadinessChecked
  | .ok r => r
  | .httpError _ r => r

/-- Translation of ready in src/gateway/app/entrypoints/actuator.py: build
the components list, wrap it in a ReadinessChecked whose status field the
source always sets to OK, and raise 503 with the report as detail when any
component is OFFLINE or ERROR. -/
def ready (useLimiter ping : Bool) (auth booking : ProbeOutcome) : ReadyResult :=
  let readiness : ReadinessChecked :=
    { status := .OK, services := readinessServices useLimiter ping auth booking }
  if readiness.services.any (fun sv => isFailure sv.status)
  then .httpError 503 readiness
  else .ok readiness

theorem any_failure_eq_not_all_ok (l : List ServiceReadiness) :
    (l.any fun sv => isFailure sv.status) = !(l.all fun sv => isOK sv.status) := by
  induction l with
  | nil => rfl
  | cons hd tl ih =>
      rw [List.any_cons, List.all_cons, ih]
      cases hd with
      | mk name st => cases st <;> rfl

/-- Claim C2 counterexample: the error payload's overall status is NOT "not
OK". With the limiter disabled, the auth upstream unreachable and the
booking upstream answering 200, the endpoint raises 503 carrying the full
report — but that report's status field reads OK even though a component is
OFFLINE, refuting both "overall_status is OK iff every component is OK" and
"the error payload includes an overall_status that is not OK". -/
theorem ready_overall_ok_counterexample :
    ready false true .netFailure (.httpResponse 200)
      = .httpError 503
          { status := .OK,
            services := [ { name := "auth-service", status := .OFFLINE },
                          { name := "booking-service", status := .OK } ] } := by
  decide

/-- Claim C2 amended: the report's overall status field is always OK (the
source never recomputes it from the components); the endpoint answers 200
with the report exactly when every component is OK, and raises 503 carrying
the full report — whose overall status still reads OK — exactly when some
component is ERROR or OFFLINE. -/
theorem ready_aggregation (u p : Bool) (a b : ProbeOutcome) :
    (ready u p a b).payload
        = { status := .OK, services := readinessServices u p a b } ∧
    (ready u p a b = .ok { status := .OK, services := readinessServices u p a b }
      ↔ ((readinessServices u p a b).all fun sv => isOK sv.status) = true) ∧
    (ready u p a b
        = .httpError 503 { status := .OK, services := readinessServices u p a b }
      ↔ ((readinessServices u p a b).all fun sv => isOK sv.status) = false) := by
  have h := any_failure_eq_not_all_ok (readinessServices u p a b)
  cases hall : ((readinessServices u p a b).all fun sv => isOK sv.status) <;>
    simp [ready, ReadyResult.payload, h, hall]

/-- Claim C7: the prober's classification is total and three-valued — an
HTTP 200 response yields OK, any other received HTTP status yields ERROR, a
timeout or connection-level failure yields OFFLINE — and check_services
turns every probed service into exactly one ServiceReadiness entry. -/
theorem probe_classification (name : String) (c : Nat) (o : ProbeOutcome)
    (hc : c ≠ 200) :
    probeStatus (.httpResponse 200) = .OK ∧
    probeStatus (.httpResponse c) = .ERROR ∧
    probeStatus .netFailure = .OFFLINE ∧
    check_services [(name, o)] = [{ name := name, status := probeStatus o }] := by
  refine ⟨rfl, ?_, rfl, rfl⟩
  simp [probeStatus, hc]

/-- Witness for probe_classification: a 503 response from an upstream is
classified ERROR. -/
theorem probe_classification_witness :
    (503 : Nat) ≠ 200 ∧ probeStatus (.httpResponse 503) = .ERROR :=
  ⟨by decide, (probe_classification "auth-service" 503 .netFailure (by decide)).2.1⟩

/-- Claim C9: a component named "redis" appears in the report's components
exactly when the limiter is enabled, and its status is the ping
classification — OK when the store answers ping, ERROR when it does not —
never OFFLINE (unreachable upstreams, by contrast, are classified OFFLINE). -/
theorem redis_component_invariant (u p : Bool) (a b : ProbeOutcome) :
    (∀ sv ∈ readinessServices u p a b, sv.name = "redis" →
        u = true ∧ (sv.status = .OK ∨ sv.status = .ERROR)) ∧
    (u = true →
        ({ name := "redis", status := if p then .OK else .ERROR } : ServiceReadiness)
          ∈ readinessServices u p a b) := by
  constructor
  · intro sv hmem hname
    cases u <;> simp [readinessServices, check_services] at hmem
    · rcases hmem with h | h <;> subst h <;> simp at hname
    · rcases hmem with h | h | h
      · subst h
        refine ⟨rfl, ?_⟩
        cases p <;> simp
      · subst h
        simp at hname
      · subst h
        simp at hname
  · intro hu
    subst hu
    simp [readinessServices]

/-- Witness for redis_component_invariant: with the limiter enabled and a
failing store ping, the "redis" component is present with status ERROR,
which is not OFFLINE. -/
theorem redis_component_invariant_witness :
    ({ name := "redis", status := .ERROR } : ServiceReadiness)
        ∈ readinessServices true false (.httpResponse 200) .netFailure ∧
    (Bool.true = true ∧
      (ServiceReadinessStatus.ERROR = .OK ∨ ServiceReadinessStatus.ERROR = .ERROR)) := by
  have h := redis_component_invariant true false (.httpResponse 200) .netFailure
  have hmem := h.2 rfl
  exact ⟨by simpa using hmem, h.1 _ (by simpa using hmem) rfl⟩

/-- Claim C10: the report's components sequence is fixed and deterministic —
"redis" first when the limiter is enabled, then "auth-service", then
"booking-service"; as readinessServices and ready are functions of the probe
outcomes alone, two readiness checks under identical probe outcomes produce
identical reports. -/
theorem components_order (u p : Bool) (a b : ProbeOutcome) :
    (readinessServices u p a b).map (fun sv => sv.name)
      = (if u then ["redis"] else []) ++ ["auth-service", "booking-service"] := by
  cases u <;> simp [readinessServices, check_services]

/-- Translation of check_liveliness in
src/gateway/app/entrypoints/actuator.py. The source handler takes no
dependencies and issues no probe, store call or upstream call; the
parameters model the ambient dependency state (store ping outcome and
upstream probe outcomes) that the process could consult, and the body —
faithful to the source — ignores them all, answering HTTP 200 with an OK
ServiceReadiness payload named "api-gateway". -/
def check_liveliness (_ping : Bool) (_auth _booking : ProbeOutcome) :
    Nat × ServiceReadiness :=
  (200, { name := "api-gateway", status := .OK })

/-- Claim C8: the liveness handler answers 200 with an OK payload for every
state of the store and of the upstreams — in particular when every upstream
is offline — and its answer never varies with any of them. -/
theorem liveness_independent (p q : Bool) (a b a2 b2 : ProbeOutcome) :
    check_liveliness p a b
        = (200, { name := "api-gateway", status := ServiceReadinessStatus.OK }) ∧
    check_liveliness p a b = check_liveliness q a2 b2 :=
  ⟨rfl, rfl⟩

/-- One HTTP call forwarded by the gateway helper of
src/gateway/app/adapters (observed at the dispatcher boundary): target
service base url, path and method. -/
structure GatewayCall where
  service_url : String
  path : String
  method : String
deriving DecidableEq, Repr

/-- Upstream behaviour for one create_booking interaction: the status and
detail the auth upstream answers for the user-existence check, and the
status, created id and detail the booking upstream would answer. -/
structure BookingEnv where
  authStatus : Nat
  authDetail : String
  bookingStatus : Nat
  bookingRespId : String
  bookingDetail : String
deriving DecidableEq, Repr

/-- Result of the POST /booking-service/bookings endpoint: the created
reservation's id with the Location header value, or an HTTPException. -/
inductive BookingResult where
  | created (respId : String) (location : String) : BookingResult
  | httpError (code : Nat) (detail : String) : BookingResult
deriving DecidableEq, Repr

/-- Translation of create_booking in
src/gateway/app/entrypoints/v1/booking.py, also recording the calls issued:
first a GET to the auth upstream at /api/v1/users/{command.user}; when its
status differs from 200 the handler raises that status with the upstream's
detail and the booking upstream is never called; otherwise a POST to the
booking upstream at /api/v1/bookings, answering 201 with a Location header
when the booking status is 200, 201 or 202, and raising the booking status
otherwise. -/
def create_booking (authURL bookingURL baseURL user : String) (env : BookingEnv) :
    BookingResult × List GatewayCall :=
  let authCall : GatewayCall :=
    { service_url := authURL, path := "/api/v1/users/" ++ user, method := "GET" }
  if env.authStatus ≠ 200 then
    (.httpError env.authStatus env.authDetail, [authCall])
  else
    let bookingCall : GatewayCall :=
      { service_url := bookingURL, path := "/api/v1/bookings", method := "POST" }
    if env.bookingStatus = 200 ∨ env.bookingStatus = 201 ∨ env.bookingStatus = 202 then
      (.created env.bookingRespId (baseURL ++ "api/v1/users/" ++ env.bookingRespId),
       [authCall, bookingCall])
    else
      (.httpError env.bookingStatus env.bookingDetail, [authCall, bookingCall])

/-- Claim C6 counterexample: the booking call is NOT issued for every 2xx
auth answer. When the auth upstream answers 204 — a success (2xx) status —
the handler still raises 204 and never calls the booking upstream, because
the source requires the auth status to equal 200 exactly. -/
theorem booking_not_issued_on_204 :
    create_booking "http://auth" "http://booking" "http://gw/" "johndoe"
        { authStatus := 204, authDetail := "No Content", bookingStatus := 201,
          bookingRespId := "r1", bookingDetail := "" }
      = (.httpError 204 "No Content",
         [{ service_url := "http://auth", path := "/api/v1/users/johndoe",
            method := "GET" }])
    ∧ 200 ≤ 204 ∧ 204 < 300 := by
  decide

/-- Claim C6 amended: the gateway forwards the booking command to the
booking upstream if and only if the auth upstream's user-existence check
answers exactly 200; on any other status (404 included, but also non-200
2xx statuses) the booking call is never issued and the response surfaces
the auth step's status code and detail. -/
theorem booking_requires_auth_200 (aU bU base user : String) (env : BookingEnv) :
    (env.authStatus ≠ 200 →
      create_booking aU bU base user env
        = (.httpError env.authStatus env.authDetail,
           [{ service_url := aU, path := "/api/v1/users/" ++ user,
              method := "GET" }])) ∧
    (env.authStatus = 200 →
      (create_booking aU bU base user env).2
        = [{ service_url := aU, path := "/api/v1/users/" ++ user, method := "GET" },
           { service_url := bU, path := "/api/v1/bookings", method := "POST" }]) := by
  constructor
  · intro hne
    simp [create_booking, hne]
  · intro heq
    by_cases hbk : env.bookingStatus = 200 ∨ env.bookingStatus = 201
        ∨ env.bookingStatus = 202 <;>
      simp [create_booking, heq, hbk]

/-- Witness for booking_requires_auth_200: the spec's scenario — the auth
upstream answers 404 for the user check; the booking upstream is never
called and the response surfaces 404 with the auth detail. -/
theorem booking_requires_auth_200_witness :
    (404 : Nat) ≠ 200 ∧
    create_booking "http://auth" "http://booking" "http://gw/" "johndoe"
        { authStatus := 404, authDetail := "User not found", bookingStatus := 201,
          bookingRespId := "r1", bookingDetail := "" }
      = (.httpError 404 "User not found",
         [{ service_url := "http://auth", path := "/api/v1/users/johndoe",
            method := "GET" }]) := by
  refine ⟨by decide, ?_⟩
  exact (booking_requires_auth_200 "http://auth" "http://booking" "http://gw/"
    "johndoe"
    { authStatus := 404, authDetail := "User not found", bookingStatus := 201,
      bookingRespId := "r1", bookingDetail := "" }).1 (by decide)

end FastGateway
